import Mathlib

/-!
Shallow embedding of `src/python/zaw_coord2.py` (class `CRD` and the
module-level `dot`), for checking the natural-language specification of the
PolarFlux repository against the code.

Modelling conventions:

* Numpy 2D arrays are total functions `Nat → Nat → α`, indexed `[row, col]`
  like the source.  The array dimensions (`im_raw.dimensions`) only bound
  which indices are ever inspected; per-pixel values do not depend on them.
* Floating-point numbers are an abstract linear ordered field `α`; the
  transcendental numpy routines (`np.sin`, `np.tan`, `np.arctan2`,
  `np.sqrt`, `np.deg2rad`, ...) are an abstract operation record
  `NumpyOps α`, so every theorem proved for all `ops` holds for the real
  floating-point operations in particular.  Concrete witnesses instantiate
  `α := ℚ` with dummy operations; they are only used where the claim being
  evaluated does not depend on the operations' values (control flow, error
  paths, masks whose scrutinised argument is an exact constant).
* Python exceptions are `Except PyErr`; a method that mutates `self` is a
  function `St α → result × St α`, threading the instance attributes of the
  `CRD` object explicitly.  Mutations performed before an exception is
  raised persist in the returned state, as in Python.
* `1/0 = 0` in a Lean field whereas numpy arrays produce `inf`; this is
  noted where division occurs (line 126 of the source) and affects no
  theorem below, since the quantity involved is either abstract or unused.
-/

namespace PolarFlux

/-- Python exception kinds that the translated code can raise. -/
inductive PyErr where
  | indexError
  | nameError
  | attributeError
  | typeError
  | keyError
deriving DecidableEq

/-- A grid cell value: an ordinary number, or the `np.nan` sentinel written by
the off-disk mask of `eoa` (line 232).  NaN is kept out of `α` so that the
mask's effect is visible in the type. -/
inductive GVal (α : Type) where
  | num (a : α)
  | nan
deriving DecidableEq

/-- Whether a cell holds the NaN sentinel. -/
def GVal.isNan {α : Type} : GVal α → Bool
  | .nan => true
  | .num _ => false

/-- Abstract record of the numpy real-valued routines used by the source.
Keeping them abstract makes every universally quantified theorem independent
of floating-point behaviour. -/
structure NumpyOps (α : Type) where
  sin : α → α
  cos : α → α
  tan : α → α
  arcsin : α → α
  arctan2 : α → α → α
  sqrt : α → α
  deg2rad : α → α
  rad2deg : α → α

/-- The observation data extracted in `CRD.__init__` (lines 27-49) plus the
image: `B0`, `L0` (degrees), disk-center pixel `X0`, `Y0`, the pixel scales
`im_raw.scale` (arcsec/px), the apparent solar radius `self.rsun`, the image
dimensions and the raw data array.  None of these is ever mutated after
construction. -/
structure Ctx (α : Type) where
  B0 : α
  L0 : α
  X0 : α
  Y0 : α
  xScl : α
  yScl : α
  rsun : α
  xdim : Nat
  ydim : Nat
  data : Nat → Nat → α

/-- The mutable instance-attribute state of a `CRD` object: the immutable
observation context plus every lazily created array attribute (`self.xg`,
`self.yg`, `self.rg`, `self.lonh`, `self.lath`, `self.im_corr`, `self.area`,
`self.mgnt_flux`).  `none` models "attribute not yet created". -/
structure St (α : Type) where
  ctx : Ctx α
  xg : Option (Nat → Nat → α) := none
  yg : Option (Nat → Nat → α) := none
  rg : Option (Nat → Nat → α) := none
  lonh : Option (Nat → Nat → α) := none
  lath : Option (Nat → Nat → α) := none
  im_corr : Option (Nat → Nat → α) := none
  area : Option (Nat → Nat → GVal α) := none
  mgnt_flux : Option (Nat → Nat → GVal α) := none

variable {α : Type} [LinearOrderedField α]

/-- Module-level `dot` (lines 245-246): componentwise 3-vector dot product. -/
def dot (a b : α × α × α) : α :=
  a.1 * b.1 + a.2.1 * b.2.1 + a.2.2 * b.2.2

/-- `np.cross` on 3-vectors, as used at lines 218-219. -/
def cross (a b : α × α × α) : α × α × α :=
  (a.2.1 * b.2.2 - a.2.2 * b.2.1,
   a.2.2 * b.1 - a.1 * b.2.2,
   a.1 * b.2.1 - a.2.1 * b.1)

/-- Grid-path x row (lines 84 and 91): `(np.arange(0, xdim) - X0 [+ dx])*xScl`.
The offset branch is taken when `heliographic` receives sub-pixel offsets
(the `IndexError` fallback at line 90 selects the no-offset branch). -/
def gridXrow (c : Ctx α) (off : Option (α × α)) (j : Nat) : α :=
  match off with
  | some o => ((j : α) - c.X0 + o.1) * c.xScl
  | none => ((j : α) - c.X0) * c.xScl

/-- Grid-path y row (lines 85 and 92): `(np.arange(0, ydim) - Y0 [+ dy])*yScl`. -/
def gridYrow (c : Ctx α) (off : Option (α × α)) (i : Nat) : α :=
  match off with
  | some o => ((i : α) - c.Y0 + o.2) * c.yScl
  | none => ((i : α) - c.Y0) * c.yScl

/-- Point-path x conversion (line 101): `x = (col - X0)*xScl/60.0`. -/
def pointX (c : Ctx α) (col : α) : α := (col - c.X0) * c.xScl / 60

/-- Point-path y conversion (line 102): `y = (Y0 - row)*yScl/60.0`. -/
def pointY (c : Ctx α) (row : α) : α := (c.Y0 - row) * c.yScl / 60

/-- The radial-distance grid `self.rg = np.sqrt(xg**2 + yg**2)` stored at
lines 87 and 94 (meshgrid with `indexing='xy'`: `xg[i,j] = xrow[j]`,
`yg[i,j] = yrow[i]`). -/
def hgRg (ops : NumpyOps α) (c : Ctx α) (off : Option (α × α))
    (i j : Nat) : α :=
  ops.sqrt (gridXrow c off j ^ 2 + gridYrow c off i ^ 2)

/-- The pure per-pixel computation of the grid branch of `CRD.heliographic`
(lines 104-135 and 145), returning the `(longitude, latitude)` grids in
degrees.  Two faithfulness notes:

* Line 113, `w_rat2 = np.where(rat2 is not 0)`: `rat2 is not 0` is a Python
  identity test of an ndarray against the int literal `0`, which is always
  `True`, so `np.where(True) = ([0],)` and the masked assignments at lines
  114 and 126 write ROW 0 ONLY; every other row keeps `phi = 0` and
  `ras2 = 0`.  This is embedded by the `if i = 0` tests below.
* Lines 119-121 clamp `rat2` to `max_rat2` where it exceeds it; the
  `if ii[0].any() > 0` guard is the identity when no pixel exceeds, so the
  pointwise clamp below agrees with the source on every in-grid pixel.
* Line 126 divides by `rat2`; numpy gives `inf` for `1.0/0.0` (and then
  `ras2 = 0`) whereas a Lean field gives `1/0 = 0` (and then `ras2 = 1`).
  No theorem below inspects a pixel where `rat2 = 0` on row 0. -/
def hgFormula (ops : NumpyOps α) (c : Ctx α) (off : Option (α × α)) :
    (Nat → Nat → α) × (Nat → Nat → α) :=
  let x : Nat → Nat → α := fun _ j => gridXrow c off j
  let y : Nat → Nat → α := fun i _ => -(gridYrow c off i)
  let _b0_r := ops.deg2rad c.B0
  let Robs := 1 / ops.tan (ops.deg2rad (c.rsun / 60))
  let xxat : Nat → Nat → α := fun i j => ops.tan (ops.deg2rad (x i j / 60))
  let yyat : Nat → Nat → α := fun i j => ops.tan (ops.deg2rad (y i j / 60))
  let rat2 : Nat → Nat → α := fun i j => xxat i j ^ 2 + yyat i j ^ 2
  let phi : Nat → Nat → α := fun i j =>
    if i = 0 then ops.arctan2 (xxat i j) (yyat i j) else 0
  let max_ra := ops.arcsin (1 / Robs)
  let max_rat2 := ops.tan max_ra * ops.tan max_ra
  let rat2c : Nat → Nat → α := fun i j =>
    if rat2 i j > max_rat2 then max_rat2 else rat2 i j
  let ras2 : Nat → Nat → α := fun i j =>
    if i = 0 then 1 / (1 + 1 / rat2c i j) else 0
  let d1 : Nat → Nat → α := fun i j => 1 - ras2 i j
  let d2 : Nat → Nat → α := fun i j => 1 - Robs ^ 2 * ras2 i j
  let xlos : Nat → Nat → α := fun i j =>
    ras2 i j * Robs + ops.sqrt (d1 i j) * ops.sqrt (d2 i j)
  let rr : Nat → Nat → α := fun i j => ops.sqrt (rat2c i j * Robs)
  let t1 : Nat → Nat → α := fun i j => ops.sin (phi i j) * rr i j
  let t2 : Nat → Nat → α := fun i j => ops.cos (phi i j) * rr i j
  let hglt : Nat → Nat → α := fun i j => ops.arcsin (t2 i j)
  let hgln : Nat → Nat → α := fun i j => ops.arctan2 (xlos i j) (t1 i j)
  (fun i j => ops.rad2deg (hgln i j), fun i j => ops.rad2deg (hglt i j))

/-- Grid branch of `CRD.heliographic` (lines 78-96 and 104-145): computes the
longitude/latitude grids, stores `self.xg`, `self.yg`, `self.rg`
unconditionally, stores `self.lonh`/`self.lath` only when `self.lonh` does
not yet exist (line 141), and returns the freshly computed pair (line 145,
never the cache). -/
def heliographic_grid (ops : NumpyOps α) (s : St α) (off : Option (α × α)) :
    ((Nat → Nat → α) × (Nat → Nat → α)) × St α :=
  let g := hgFormula ops s.ctx off
  let s' : St α :=
    { s with xg := some (fun _ j => gridXrow s.ctx off j),
             yg := some (fun i _ => gridYrow s.ctx off i),
             rg := some (fun i j => hgRg ops s.ctx off i j) }
  (g, if s'.lonh.isSome then s'
      else { s' with lonh := some g.1, lath := some g.2 })

/-- Point branch of `CRD.heliographic` (lines 97-114), called as
`heliographic(row, col)`.  Lines 101-113 build scalar values; at line 113
`w_rat2 = np.where(rat2 is not 0)` evaluates to `([0],)` because the `is`
test is always `True`, and line 114 then fancy-indexes the numpy float64
scalars `xxat`/`yyat`/`phi` with it, which raises
`IndexError: invalid index to scalar variable`.  The instance is left
untouched (no attribute is written on this path before the raise). -/
def heliographic_point (ops : NumpyOps α) (s : St α) (row col : α) :
    Except PyErr (α × α) × St α :=
  let x := pointX s.ctx col
  let y := pointY s.ctx row
  let _b0_r := ops.deg2rad s.ctx.B0
  let _Robs := 1 / ops.tan (ops.deg2rad (s.ctx.rsun / 60))
  let xxat := ops.tan (ops.deg2rad (x / 60))
  let yyat := ops.tan (ops.deg2rad (y / 60))
  let rat2 := xxat ^ 2 + yyat ^ 2
  let _phi := (0 : α) * rat2
  (Except.error PyErr.indexError, s)

/-- Grid branch of `CRD.los_corr` (lines 147-169).  Line 156 runs the grid
projection (with its attribute writes); lines 160-162 then read the bare
module-level name `B0` — the source writes `B0` where `self.B0` was meant —
which is undefined, so the call raises `NameError` before the correction
factor is ever formed.  The intermediate `deg2rad` conversions of line 156
are recorded for fidelity but unused. -/
def los_corr_grid (ops : NumpyOps α) (s : St α) :
    Except PyErr (Nat → Nat → α) × St α :=
  let h := heliographic_grid ops s none
  let _lonh : Nat → Nat → α := fun i j => ops.deg2rad (h.1.1 i j)
  let _lath : Nat → Nat → α := fun i j => ops.deg2rad (h.1.2 i j)
  (Except.error PyErr.nameError, h.2)

/-- Point branch of `CRD.los_corr` (line 158 onwards): the single-point
projection raises `IndexError` first; were it ever to return, line 160 would
still raise `NameError` on the undefined bare name `B0`. -/
def los_corr_point (ops : NumpyOps α) (s : St α) (row col : α) :
    Except PyErr α × St α :=
  match heliographic_point ops s row col with
  | (Except.error e, s1) => (Except.error e, s1)
  | (Except.ok _, s1) => (Except.error PyErr.nameError, s1)

/-- Unit vector on the sphere from heliographic longitude/latitude in
degrees, `(cos(lat)cos(lon), cos(lat)sin(lon), sin(lat))` — exactly the
expression of source lines 200-214 (and of the spec's §4.3). -/
def sphUnit (ops : NumpyOps α) (lon lat : α) : α × α × α :=
  (ops.cos (ops.deg2rad lat) * ops.cos (ops.deg2rad lon),
   ops.cos (ops.deg2rad lat) * ops.sin (ops.deg2rad lon),
   ops.sin (ops.deg2rad lat))

/-- The solar radius constant of line 227, `r = 6.957e10 * u.cm`, with the
astropy unit treated as transparent. -/
def rsunCm : ℚ := 69570000000

/-- Grid branch of `CRD.eoa` (lines 186-190 and 199-233): four corner-offset
grid projections (threading the attribute writes of each call), the corner
unit vectors, the two-triangle solid angle of lines 218-226, `np.abs(r**2 *
solid_angle)` of line 230, and the off-disk NaN mask of lines 231-232.  Note
the mask reads `self.rg`, which at that point holds the radial grid of the
LAST corner call (offsets `(-0.5, +0.5)`), not the pixel-center distances,
and compares it with `self.rsun`. -/
def eoa_grid (ops : NumpyOps α) (s : St α) :
    (Nat → Nat → GVal α) × St α :=
  let h1 := heliographic_grid ops s (some (-(1/2 : α), -(1/2 : α)))
  let h2 := heliographic_grid ops h1.2 (some ((1/2 : α), -(1/2 : α)))
  let h3 := heliographic_grid ops h2.2 (some ((1/2 : α), (1/2 : α)))
  let h4 := heliographic_grid ops h3.2 (some (-(1/2 : α), (1/2 : α)))
  let r1 : Nat → Nat → α × α × α := fun i j => sphUnit ops (h1.1.1 i j) (h1.1.2 i j)
  let r2 : Nat → Nat → α × α × α := fun i j => sphUnit ops (h2.1.1 i j) (h2.1.2 i j)
  let r3 : Nat → Nat → α × α × α := fun i j => sphUnit ops (h3.1.1 i j) (h3.1.2 i j)
  let r4 : Nat → Nat → α × α × α := fun i j => sphUnit ops (h4.1.1 i j) (h4.1.2 i j)
  let solid_angle1 : Nat → Nat → α := fun i j =>
    2 * ops.arctan2 (dot (cross (r1 i j) (r2 i j)) (r3 i j))
      (dot (r1 i j) (r2 i j) + dot (r2 i j) (r3 i j) + dot (r3 i j) (r1 i j) + 1)
  let solid_angle2 : Nat → Nat → α := fun i j =>
    2 * ops.arctan2 (dot (cross (r3 i j) (r4 i j)) (r1 i j))
      (dot (r3 i j) (r4 i j) + dot (r4 i j) (r1 i j) + dot (r3 i j) (r1 i j) + 1)
  let solid_angle : Nat → Nat → α := fun i j => solid_angle1 i j + solid_angle2 i j
  let areaRaw : Nat → Nat → α := fun i j => |(rsunCm : α) ^ 2 * solid_angle i j|
  let rgLast : Nat → Nat → α := h4.2.rg.getD (fun _ _ => 0)
  let masked : Nat → Nat → GVal α := fun i j =>
    if rgLast i j > h4.2.ctx.rsun then GVal.nan else GVal.num (areaRaw i j)
  (masked, { h4.2 with area := some masked })

/-- Point branch of `CRD.eoa` (lines 191-197 and 199-226, no mask on this
path).  The first corner projection `heliographic(x - .5, y - .5)` raises
`IndexError` (single-point path), which propagates; the later corners and
the solid-angle formula are written out for fidelity but unreachable. -/
def eoa_point (ops : NumpyOps α) (s : St α) (row col : α) :
    Except PyErr α × St α :=
  match heliographic_point ops s (row - 1/2) (col - 1/2) with
  | (Except.error e, s1) => (Except.error e, s1)
  | (Except.ok pUL, s1) =>
    match heliographic_point ops s1 (row + 1/2) (col - 1/2) with
    | (Except.error e, s2) => (Except.error e, s2)
    | (Except.ok pLL, s2) =>
      match heliographic_point ops s2 (row + 1/2) (col + 1/2) with
      | (Except.error e, s3) => (Except.error e, s3)
      | (Except.ok pLR, s3) =>
        match heliographic_point ops s3 (row - 1/2) (col + 1/2) with
        | (Except.error e, s4) => (Except.error e, s4)
        | (Except.ok pUR, s4) =>
          let r1 := sphUnit ops pUL.1 pUL.2
          let r2 := sphUnit ops pLL.1 pLL.2
          let r3 := sphUnit ops pLR.1 pLR.2
          let r4 := sphUnit ops pUR.1 pUR.2
          let sa1 := 2 * ops.arctan2 (dot (cross r1 r2) r3)
            (dot r1 r2 + dot r2 r3 + dot r3 r1 + 1)
          let sa2 := 2 * ops.arctan2 (dot (cross r3 r4) r1)
            (dot r3 r4 + dot r4 r1 + dot r3 r1 + 1)
          (Except.ok |(rsunCm : α) ^ 2 * (sa1 + sa2)|, s4)

/-- `CRD.magnetic_flux` (lines 237-243).  Line 239 evaluates
`self.area(*args)`: `area` is not a method of the class (the area routine is
named `eoa`); it is only an instance attribute — an ndarray — created by a
previous grid `eoa` call.  Attribute lookup therefore raises
`AttributeError` on a fresh instance, and calling the stored ndarray raises
`TypeError` otherwise; either way the flux product of the docstring is never
formed.  The behaviour does not depend on the arguments, so one definition
covers both call modes. -/
def magnetic_flux (s : St α) : Except PyErr (Nat → Nat → GVal α) × St α :=
  match s.area with
  | none => (Except.error PyErr.attributeError, s)
  | some _ => (Except.error PyErr.typeError, s)

/-- The source metadata of the image: a partial map from FITS keyword to
value, `self.im_raw.meta`. -/
structure MetaMap (α : Type) where
  find : String → Option α

def keyB0 : String := "B0"
def keyOBS_B0 : String := "OBS_B0"
def keyL0 : String := "L0"
def keyOBS_L0 : String := "OBS_L0"
def keyX0 : String := "X0"
def keyIMG_X0 : String := "IMG_X0"
def keyY0 : String := "Y0"
def keyIMG_Y0 : String := "IMG_Y0"

/-- One `try: meta[k1] except KeyError: meta[k2]` block of lines 30-45: the
first key wins; a `KeyError` from the second lookup propagates (the spec
names this propagated failure `MissingMetadataError`). -/
def metaLookup2 (m : MetaMap α) (k1 k2 : String) : Except PyErr α :=
  match m.find k1 with
  | some v => Except.ok v
  | none =>
    match m.find k2 with
    | some v => Except.ok v
    | none => Except.error PyErr.keyError

/-- The four observation-geometry fields read by `CRD.__init__`. -/
structure InitGeom (α : Type) where
  B0 : α
  L0 : α
  X0 : α
  Y0 : α

/-- The metadata-extraction part of `CRD.__init__` (lines 30-45): each of
B0, L0, X0, Y0 is read through its two-key fallback chain, in order. -/
def initCRD (m : MetaMap α) : Except PyErr (InitGeom α) := do
  let b0 ← metaLookup2 m keyB0 keyOBS_B0
  let l0 ← metaLookup2 m keyL0 keyOBS_L0
  let x0 ← metaLookup2 m keyX0 keyIMG_X0
  let y0 ← metaLookup2 m keyY0 keyIMG_Y0
  return ⟨b0, l0, x0, y0⟩

/-- Whether a Python computation completed without raising. -/
def exOk {β : Type} (e : Except PyErr β) : Bool :=
  match e with
  | Except.ok _ => true
  | Except.error _ => false

/-- The value the two-key fallback chain settles on: the first key found. -/
def firstKey (m : MetaMap α) (k1 k2 : String) : Option α :=
  match m.find k1 with
  | some v => some v
  | none => m.find k2

/-- Concrete metadata table for the C8 witness: `B0` only under its
full-instrument key, the other three fields split across both forms. -/
def mEx : MetaMap ℚ :=
  { find := fun k =>
      if k = keyOBS_B0 then some 3
      else if k = keyL0 then some 1
      else if k = keyX0 then some 5
      else if k = keyIMG_Y0 then some 7
      else none }

/-- Claim-side quantity for C6: the squared radial distance of a PIXEL
CENTER from disk center (in the same arcsec units as `self.rg`), squared so
that it stays in exact field arithmetic; for nonnegative quantities
`d > r ↔ d^2 > r^2`. -/
def radialDistSq (c : Ctx α) (i j : Nat) : α :=
  (((j : α) - c.X0) * c.xScl) ^ 2 + (((i : α) - c.Y0) * c.yScl) ^ 2

/-- Claim-side formula for C7: the Van Oosterom–Strackee solid angle of the
spherical triangle `(a, b, c)`,
`2*atan2(a × b · c, 1 + a·b + b·c + c·a)`. -/
def vosTriangle (ops : NumpyOps α) (a b c : α × α × α) : α :=
  2 * ops.arctan2 (dot (cross a b) c) (1 + dot a b + dot b c + dot c a)

/-- Claim-side formula for C7: per-pixel area as the claim states it — the
heliographic projection evaluated at the four corner offsets
`(-0.5,-0.5), (0.5,-0.5), (0.5,0.5), (-0.5,0.5)`, each corner turned into a
unit vector, and solar-radius-squared times the sum of the solid angles of
triangles `(r1,r2,r3)` and `(r3,r4,r1)`. -/
def claimPixelArea (ops : NumpyOps α) (c : Ctx α) (i j : Nat) : α :=
  let p1 := hgFormula ops c (some (-(1/2 : α), -(1/2 : α)))
  let p2 := hgFormula ops c (some ((1/2 : α), -(1/2 : α)))
  let p3 := hgFormula ops c (some ((1/2 : α), (1/2 : α)))
  let p4 := hgFormula ops c (some (-(1/2 : α), (1/2 : α)))
  let r1 := sphUnit ops (p1.1 i j) (p1.2 i j)
  let r2 := sphUnit ops (p2.1 i j) (p2.2 i j)
  let r3 := sphUnit ops (p3.1 i j) (p3.2 i j)
  let r4 := sphUnit ops (p4.1 i j) (p4.2 i j)
  (rsunCm : α) ^ 2 * (vosTriangle ops r1 r2 r3 + vosTriangle ops r3 r4 r1)

/-- Dummy rational instantiation of the numpy routines, for concrete
evaluation of control-flow facts.  Only `sqrt` is ever scrutinised by a
concrete theorem below, and only at the argument `0`, where `id` agrees with
the real square root. -/
def qOps : NumpyOps ℚ :=
  { sin := fun _ => 0, cos := fun _ => 0, tan := fun _ => 0,
    arcsin := fun _ => 0, arctan2 := fun _ _ => 0,
    sqrt := fun a => a, deg2rad := fun _ => 0, rad2deg := fun _ => 0 }

/-- The example observation context of the spec's §8 scenario:
`B0=0, L0=0, X0=512, Y0=512, scale (1,1) arcsec/px, rsun=500`. -/
def ctx5 : Ctx ℚ :=
  { B0 := 0, L0 := 0, X0 := 512, Y0 := 512, xScl := 1, yScl := 1,
    rsun := 500, xdim := 1024, ydim := 1024, data := fun _ _ => 0 }

/-- Fresh `CRD` state over the §8 example context. -/
def st5 : St ℚ := { ctx := ctx5 }

/-- Small context used for the C4 conversion comparison: disk center at the
origin, unit scales. -/
def ctx4 : Ctx ℚ :=
  { B0 := 0, L0 := 0, X0 := 0, Y0 := 0, xScl := 1, yScl := 1,
    rsun := 500, xdim := 4, ydim := 4, data := fun _ _ => 0 }

/-- Fresh state over `ctx4`. -/
def st4 : St ℚ := { ctx := ctx4 }

/-- Context of the C6 counterexample: disk center `(0.5, 0.5)`, unit scales,
apparent radius `0.6`; on the 2×2 grid, pixel `(row 0, col 1)` has center
distance `sqrt(1/2) ≈ 0.707 > 0.6` (off-disk) but its `(-0.5, +0.5)`-offset
corner sits exactly on disk center. -/
def ctx6 : Ctx ℚ :=
  { B0 := 0, L0 := 0, X0 := 1/2, Y0 := 1/2, xScl := 1, yScl := 1,
    rsun := 3/5, xdim := 2, ydim := 2, data := fun _ _ => 0 }

/-- Fresh state over `ctx6`. -/
def st6 : St ℚ := { ctx := ctx6 }

/-! Helper lemmas about the grid projection's state handling. -/

/-- The returned grids of a grid projection depend only on the observation
context, never on the cached attributes. -/
theorem hg_fst (ops : NumpyOps α) (s : St α) (off : Option (α × α)) :
    (heliographic_grid ops s off).1 = hgFormula ops s.ctx off := rfl

/-- A grid projection never changes the observation context. -/
theorem hg_snd_ctx (ops : NumpyOps α) (s : St α) (off : Option (α × α)) :
    (heliographic_grid ops s off).2.ctx = s.ctx := by
  unfold heliographic_grid
  dsimp only
  split <;> rfl

/-- After a grid projection, `self.rg` holds the radial grid of THAT call's
offsets. -/
theorem hg_snd_rg (ops : NumpyOps α) (s : St α) (off : Option (α × α)) :
    (heliographic_grid ops s off).2.rg
      = some (fun i j => hgRg ops s.ctx off i j) := by
  unfold heliographic_grid
  dsimp only
  split <;> rfl

/-- After any grid projection, `self.lonh` exists. -/
theorem hg_snd_lonh_isSome (ops : NumpyOps α) (s : St α)
    (off : Option (α × α)) :
    (heliographic_grid ops s off).2.lonh.isSome = true := by
  unfold heliographic_grid
  dsimp only
  split
  · next h => exact h
  · rfl

/-- Once `self.lonh` exists, a grid projection leaves it unchanged. -/
theorem hg_snd_lonh_of_isSome (ops : NumpyOps α) (s : St α)
    (off : Option (α × α)) (h : s.lonh.isSome = true) :
    (heliographic_grid ops s off).2.lonh = s.lonh := by
  unfold heliographic_grid
  dsimp only
  split
  · rfl
  · next hns => exact absurd h hns

/-- Once `self.lonh` exists, a grid projection leaves `self.lath` unchanged
as well. -/
theorem hg_snd_lath_of_isSome (ops : NumpyOps α) (s : St α)
    (off : Option (α × α)) (h : s.lonh.isSome = true) :
    (heliographic_grid ops s off).2.lath = s.lath := by
  unfold heliographic_grid
  dsimp only
  split
  · rfl
  · next hns => exact absurd h hns

/-- On a fresh instance, the first grid projection stores the returned
longitude and latitude grids. -/
theorem hg_snd_cache_of_none (ops : NumpyOps α) (s : St α)
    (off : Option (α × α)) (h : s.lonh = none) :
    (heliographic_grid ops s off).2.lonh = some (heliographic_grid ops s off).1.1
      ∧ (heliographic_grid ops s off).2.lath = some (heliographic_grid ops s off).1.2 := by
  unfold heliographic_grid
  dsimp only
  split
  · next hc =>
    rw [show ({ s with xg := some fun _ j => gridXrow s.ctx off j,
                       yg := some fun i _ => gridYrow s.ctx off i,
                       rg := some fun i j => hgRg ops s.ctx off i j } : St α).lonh
          = s.lonh from rfl, h] at hc
    exact absurd hc (by simp)
  · exact ⟨rfl, rfl⟩

/-- The source's first triangle solid angle (lines 222-223) is the
Van Oosterom–Strackee formula for `(a, b, c)`. -/
theorem code_tri1_eq_vos (ops : NumpyOps α) (a b c : α × α × α) :
    2 * ops.arctan2 (dot (cross a b) c)
        (dot a b + dot b c + dot c a + 1) = vosTriangle ops a b c := by
  have h : dot a b + dot b c + dot c a + 1
      = 1 + dot a b + dot b c + dot c a := by ring
  unfold vosTriangle
  rw [h]

/-- The source's second triangle solid angle (lines 224-225) — whose last
dot product is written `dot(r3, r1)`, i.e. `dot a c` for `(a,b,c) =
(r3,r4,r1)` — is the Van Oosterom–Strackee formula for `(a, b, c)`. -/
theorem code_tri2_eq_vos (ops : NumpyOps α) (a b c : α × α × α) :
    2 * ops.arctan2 (dot (cross a b) c)
        (dot a b + dot b c + dot a c + 1) = vosTriangle ops a b c := by
  have h : dot a b + dot b c + dot a c + 1
      = 1 + dot a b + dot b c + dot c a := by
    unfold dot; ring
  unfold vosTriangle
  rw [h]

/-! The claims. -/

/-- Claim C1 (code bug): the claim says the heliographic projection returns
a clamped result for every input and never raises; in fact EVERY
single-point call raises `IndexError`, because line 113's
`np.where(rat2 is not 0)` yields `([0],)` and line 114 fancy-indexes the
numpy float64 scalars with it.  This theorem evaluates the code on the
failing inputs: for all operations, contexts and pixel pairs the point path
returns the `IndexError` and no coordinate pair. -/
theorem heliographic_point_raises (ops : NumpyOps α) (s : St α) (row col : α) :
    heliographic_point ops s row col = (Except.error PyErr.indexError, s) := rfl

/-- Claim C2 (code bug): the claim says `los_corr` returns
`rawIntensity / corrFactor`; in fact the grid path raises `NameError`
(lines 160-162 read the undefined bare name `B0` instead of `self.B0`) and
the point path propagates the projection's `IndexError`, so no corrected
field is ever returned. -/
theorem los_corr_raises (ops : NumpyOps α) (s : St α) (row col : α) :
    (los_corr_grid ops s).1 = Except.error PyErr.nameError ∧
    (los_corr_point ops s row col).1 = Except.error PyErr.indexError :=
  ⟨rfl, rfl⟩

omit [LinearOrderedField α] in
/-- Claim C3 (code bug): the claim says `magnetic_flux = area * los_corr`;
in fact line 239 calls `self.area(*args)` although the area routine is the
method `eoa` — on a fresh instance the attribute does not exist
(`AttributeError`), and after a grid `eoa` call it is an ndarray
(`TypeError: not callable`).  Either way the product is never formed. -/
theorem magnetic_flux_raises (s : St α) :
    ∃ e, magnetic_flux s = (Except.error e, s) := by
  cases h : s.area
  · exact ⟨PyErr.attributeError, by simp [magnetic_flux, h]⟩
  · exact ⟨PyErr.typeError, by simp [magnetic_flux, h]⟩

/-- Claim C4 (code bug): the claim says both call modes start from
`x = (col - X0)*scaleX/60`; in fact the grid path (line 91) computes
`(col - X0)*scaleX` with NO division by 60, a factor-60 disagreement with
the point path (line 101) before the shared downstream transform — and the
point path raises `IndexError` anyway, so the two modes never produce equal
coordinates.  Evaluated at `col = 1`, `X0 = 0`, `scaleX = 1`. -/
theorem grid_point_conversion_mismatch :
    pointX ctx4 1 ≠ gridXrow ctx4 none 1 ∧
    (heliographic_point qOps st4 0 1).1 = Except.error PyErr.indexError :=
  ⟨by norm_num [pointX, gridXrow, ctx4], rfl⟩

/-- Claim C5 (code bug): the claim says projecting the disk-center pixel of
the §8 example context (`B0=0, L0=0, X0=Y0=512, scale 1, rsun=500`) yields
approximately `(0, 0)`; in fact the single-point call
`heliographic(512, 512)` raises `IndexError` and returns nothing. -/
theorem heliographic_center_example_raises :
    heliographic_point qOps st5 512 512
      = (Except.error PyErr.indexError, st5) := rfl

/-- Claim C6 counterexample: a pixel whose CENTER lies beyond the limb
(`dist² = 1/2 > rsun² = 9/25`) that the grid-mode area operation does NOT
mark NaN, because the mask of lines 231-232 tests the corner-offset radial
grid left over from the last projection call, which is exactly 0 for this
pixel (so only `sqrt 0 = 0` — true of the real square root — is used of the
dummy operations). -/
theorem eoa_offdisk_pixel_not_nan :
    radialDistSq ctx6 0 1 > ctx6.rsun ^ 2 ∧
    ((eoa_grid qOps st6).1 0 1).isNan = false := by
  constructor
  · norm_num [radialDistSq, ctx6]
  · have h : ¬ (hgRg qOps st6.ctx (some (-(1/2 : ℚ), (1/2 : ℚ))) 0 1
        > st6.ctx.rsun) := by
      norm_num [hgRg, gridXrow, gridYrow, qOps, st6, ctx6]
    simp only [eoa_grid, hg_snd_rg, hg_snd_ctx, Option.getD_some]
    rw [if_neg h]
    rfl

/-- Claim C6 as amended: the grid-mode area operation returns NaN for a
pixel exactly when the radial distance of its `(-0.5, +0.5)`-offset corner
(the `self.rg` grid stored by the LAST corner projection of `eoa`) exceeds
`self.rsun` — not when the pixel-center distance does. -/
theorem eoa_grid_nan_iff (ops : NumpyOps α) (s : St α) (i j : Nat) :
    ((eoa_grid ops s).1 i j).isNan = true ↔
      hgRg ops s.ctx (some (-(1/2 : α), (1/2 : α))) i j > s.ctx.rsun := by
  simp only [eoa_grid, hg_snd_rg, hg_snd_ctx, Option.getD_some]
  split
  · next hcond => exact iff_of_true rfl hcond
  · next hcond => exact iff_of_false (by simp [GVal.isNan]) hcond

/-- Claim C7 counterexample: the claim quantifies over every pixel, but a
single-point area query returns no value at all — the first corner
projection raises `IndexError` — so the claimed formula does not describe
the point path. -/
theorem eoa_point_raises_example :
    eoa_point qOps st4 3 5 = (Except.error PyErr.indexError, st4) := rfl

/-- Claim C7 as amended: for every pixel of a GRID-mode call, the area
operation evaluates the heliographic projection at the four corner offsets
`(-0.5,-0.5), (0.5,-0.5), (0.5,0.5), (-0.5,0.5)`, converts each corner to a
unit vector `(cos(lat)cos(lon), cos(lat)sin(lon), sin(lat))`, and — unless
the pixel is caught by the off-disk mask — returns the ABSOLUTE VALUE of
solar-radius-squared times the sum of the Van Oosterom–Strackee solid
angles of triangles `(r1,r2,r3)` and `(r3,r4,r1)`. -/
theorem eoa_grid_matches_claim (ops : NumpyOps α) (s : St α) (i j : Nat) :
    (eoa_grid ops s).1 i j =
      if hgRg ops s.ctx (some (-(1/2 : α), (1/2 : α))) i j > s.ctx.rsun
      then GVal.nan
      else GVal.num |claimPixelArea ops s.ctx i j| := by
  simp only [eoa_grid, claimPixelArea, hg_fst, hg_snd_ctx, hg_snd_rg,
    Option.getD_some]
  split
  · rfl
  · rw [code_tri1_eq_vos, code_tri2_eq_vos]

omit [LinearOrderedField α] in
/-- Claim C8 (confirmed): construction tries the short key then the
full-instrument key for each of B0, L0, X0, Y0; it succeeds exactly when
every field has at least one of its two keys, and on success each field
holds the value of the first key found.  (The propagated `KeyError` is what
the spec calls `MissingMetadataError`.) -/
theorem initCRD_fallback (m : MetaMap α) :
    (exOk (initCRD m) = true ↔
      (((m.find keyB0).isSome ∨ (m.find keyOBS_B0).isSome) ∧
       ((m.find keyL0).isSome ∨ (m.find keyOBS_L0).isSome) ∧
       ((m.find keyX0).isSome ∨ (m.find keyIMG_X0).isSome) ∧
       ((m.find keyY0).isSome ∨ (m.find keyIMG_Y0).isSome))) ∧
    (∀ g : InitGeom α, initCRD m = Except.ok g →
      some g.B0 = firstKey m keyB0 keyOBS_B0 ∧
      some g.L0 = firstKey m keyL0 keyOBS_L0 ∧
      some g.X0 = firstKey m keyX0 keyIMG_X0 ∧
      some g.Y0 = firstKey m keyY0 keyIMG_Y0) := by
  constructor
  · cases hb1 : m.find keyB0 <;> cases hb2 : m.find keyOBS_B0 <;>
    cases hl1 : m.find keyL0 <;> cases hl2 : m.find keyOBS_L0 <;>
    cases hx1 : m.find keyX0 <;> cases hx2 : m.find keyIMG_X0 <;>
    cases hy1 : m.find keyY0 <;> cases hy2 : m.find keyIMG_Y0 <;>
    simp [initCRD, metaLookup2, exOk, hb1, hb2, hl1, hl2, hx1, hx2, hy1, hy2,
      Bind.bind, Except.bind, Pure.pure, Except.pure]
  · intro g hg
    cases hb1 : m.find keyB0 <;> cases hb2 : m.find keyOBS_B0 <;>
    cases hl1 : m.find keyL0 <;> cases hl2 : m.find keyOBS_L0 <;>
    cases hx1 : m.find keyX0 <;> cases hx2 : m.find keyIMG_X0 <;>
    cases hy1 : m.find keyY0 <;> cases hy2 : m.find keyIMG_Y0 <;>
    simp_all [initCRD, metaLookup2, firstKey, Bind.bind, Except.bind,
      Pure.pure, Except.pure] <;>
    (subst hg; exact ⟨rfl, rfl, rfl, rfl⟩)

/-- Claim C8 witness: on the concrete metadata table `mEx` (B0 available
only under `OBS_B0`), construction succeeds and B0 is taken from the first
key found. -/
theorem initCRD_fallback_witness :
    exOk (initCRD mEx) = true ∧
    some (3 : ℚ) = firstKey mEx keyB0 keyOBS_B0 := by
  have hok : initCRD mEx = Except.ok ⟨3, 1, 5, 7⟩ := rfl
  exact ⟨by rw [hok]; rfl,
    ((initCRD_fallback mEx).2 ⟨3, 1, 5, 7⟩ hok).1⟩

/-- Claim C9 (confirmed): the full-grid projection caches the longitude and
latitude grids at most once — on the first grid call if they are absent —
and never rewrites them (any later grid call, with or without offsets,
leaves them unchanged), while a repeated no-offset full-grid call returns
exactly the result of the first call (the value is recomputed from the
immutable context, so it is identical). -/
theorem heliographic_grid_cache (ops : NumpyOps α) (s : St α)
    (off : Option (α × α)) :
    (heliographic_grid ops (heliographic_grid ops s none).2 none).1
        = (heliographic_grid ops s none).1
    ∧ (heliographic_grid ops (heliographic_grid ops s none).2 off).2.lonh
        = (heliographic_grid ops s none).2.lonh
    ∧ (heliographic_grid ops (heliographic_grid ops s none).2 off).2.lath
        = (heliographic_grid ops s none).2.lath
    ∧ (s.lonh = none →
        (heliographic_grid ops s none).2.lonh
            = some (heliographic_grid ops s none).1.1
        ∧ (heliographic_grid ops s none).2.lath
            = some (heliographic_grid ops s none).1.2) := by
  refine ⟨?_, ?_, ?_, ?_⟩
  · rw [hg_fst, hg_fst, hg_snd_ctx]
  · exact hg_snd_lonh_of_isSome ops _ off (hg_snd_lonh_isSome ops s none)
  · exact hg_snd_lath_of_isSome ops _ off (hg_snd_lonh_isSome ops s none)
  · exact fun h => hg_snd_cache_of_none ops s none h

/-- Claim C9 witness: on the fresh example state, the first grid call
writes the cache with exactly the grids it returns. -/
theorem heliographic_grid_cache_witness :
    (heliographic_grid qOps st5 none).2.lonh
        = some (heliographic_grid qOps st5 none).1.1
    ∧ (heliographic_grid qOps st5 none).2.lath
        = some (heliographic_grid qOps st5 none).1.2 :=
  (heliographic_grid_cache qOps st5 none).2.2.2 rfl

/-- Claim C10 (confirmed): a single-point call to the heliographic
projection, the line-of-sight corrector or the area operation leaves every
field of the instance unchanged — each of these paths raises inside the
point projection before any attribute is written, so the cached grid
attributes are created only by full-grid calls. -/
theorem point_calls_leave_state (ops : NumpyOps α) (s : St α) (row col : α) :
    (heliographic_point ops s row col).2 = s ∧
    (los_corr_point ops s row col).2 = s ∧
    (eoa_point ops s row col).2 = s :=
  ⟨rfl, rfl, rfl⟩

end PolarFlux
